import Mathlib

/-!
# Verification of the lotus builtin-actors bundle fetcher

Shallow embedding of `BundleFetcher` (package `actors`): `NewBundleFetcher`,
`Fetch`, `fetch`, `fetchURL` and `check`, together with the SHA-256 digest
computation they rely on.

Modelling decisions:
* Bytes are `Nat` (values < 256 where it matters); file contents are `List Nat`.
  Go strings are byte sequences, so the digest-file text is also a `List Nat`;
  `strings.Split(string(bs), " ")` and `hex.DecodeString` act byte-wise, which
  the model mirrors exactly.
* The filesystem is an association list from path (`String`) to a `FileEntry`,
  which is either readable content or an existing-but-unreadable file
  (modelling a mid-stream read failure).  `os.Stat` succeeds on both.
  Writing (`os.OpenFile` with `O_CREATE|O_TRUNC` plus `io.Copy`) is modelled
  as always succeeding; local write errors are not modelled.
* The network is an association list from URL to an HTTP response
  (status code and body); an absent URL models a transport error of `http.Get`.
* `os.MkdirAll` is modelled as always succeeding; directories are not part of
  the state.
* `filepath.Join a b` is modelled as `a ++ "/" ++ b`.  This agrees with Go's
  `filepath.Join` whenever the components are clean (nonempty, slash-free,
  not `.`/`..`), which holds for every component the fetcher builds from
  clean inputs; theorems quantifying over arbitrary network names carry a
  slash-freeness hypothesis where the distinction could matter.
* Go wraps errors in message strings (`xerrors.Errorf ... %w`); the model
  instead returns a structured `Err` whose constructor records the failing
  site, and classifier functions map constructors onto the spec's taxonomy
  (FilesystemError / RetrievalError / IntegrityError).
* `Fetch` returns, besides the Go result `(path, error)`, the final
  filesystem and the ordered list of URLs requested, so that frame and
  network-call-count properties can be stated.
-/

/-- Truncation to 32 bits, `x % 2^32`; Go's `uint32` arithmetic. -/
def u32 (n : Nat) : Nat := n % 4294967296

/-- 32-bit rotate right by `k`. -/
def rotr32 (k n : Nat) : Nat := u32 ((n >>> k) ||| (n <<< (32 - k)))

/-- SHA-256 `Ch e f g`. -/
def sha2Ch (e f g : Nat) : Nat := (e &&& f) ^^^ ((e ^^^ 4294967295) &&& g)

/-- SHA-256 `Maj a b c`. -/
def sha2Maj (a b c : Nat) : Nat := (a &&& b) ^^^ (a &&& c) ^^^ (b &&& c)

/-- SHA-256 big sigma-0. -/
def bigSig0 (x : Nat) : Nat := rotr32 2 x ^^^ rotr32 13 x ^^^ rotr32 22 x

/-- SHA-256 big sigma-1. -/
def bigSig1 (x : Nat) : Nat := rotr32 6 x ^^^ rotr32 11 x ^^^ rotr32 25 x

/-- SHA-256 small sigma-0. -/
def smallSig0 (x : Nat) : Nat := rotr32 7 x ^^^ rotr32 18 x ^^^ (x >>> 3)

/-- SHA-256 small sigma-1. -/
def smallSig1 (x : Nat) : Nat := rotr32 17 x ^^^ rotr32 19 x ^^^ (x >>> 10)

/-- The 64 SHA-256 round constants (FIPS 180-4), written in decimal. -/
def sha2K : List Nat :=
  [1116352408, 1899447441, 3049323471, 3921009573, 961987163, 1508970993,
   2453635748, 2870763221, 3624381080, 310598401, 607225278, 1426881987,
   1925078388, 2162078206, 2614888103, 3248222580, 3835390401, 4022224774,
   264347078, 604807628, 770255983, 1249150122, 1555081692, 1996064986,
   2554220882, 2821834349, 2952996808, 3210313671, 3336571891, 3584528711,
   113926993, 338241895, 666307205, 773529912, 1294757372, 1396182291,
   1695183700, 1986661051, 2177026350, 2456956037, 2730485921, 2820302411,
   3259730800, 3345764771, 3516065817, 3600352804, 4094571909, 275423344,
   430227734, 506948616, 659060556, 883997877, 958139571, 1322822218,
   1537002063, 1747873779, 1955562222, 2024104815, 2227730452, 2361852424,
   2428436474, 2756734187, 3204031479, 3329325298]

/-- The eight 32-bit words of SHA-256 working state. -/
structure Hash8 where
  a : Nat
  b : Nat
  c : Nat
  d : Nat
  e : Nat
  f : Nat
  g : Nat
  h : Nat
deriving DecidableEq, Repr

/-- SHA-256 initial hash value (FIPS 180-4), written in decimal. -/
def sha2Init : Hash8 :=
  ⟨1779033703, 3144134277, 1013904242, 2773480762,
   1359893119, 2600822924, 528734635, 1541459225⟩

/-- Group a byte list into 32-bit big-endian words. -/
def bytesToWords : List Nat → List Nat
  | a :: b :: c :: d :: rest => (a * 16777216 + b * 65536 + c * 256 + d) :: bytesToWords rest
  | _ => []

/-- Extend the 16-word message block by `k` further schedule words. -/
def sha2Extend : Nat → List Nat → List Nat
  | 0, w => w
  | k + 1, w =>
    let n := w.length
    let x := u32 (w.getD (n - 16) 0 + smallSig0 (w.getD (n - 15) 0) +
                  w.getD (n - 7) 0 + smallSig1 (w.getD (n - 2) 0))
    sha2Extend k (w ++ [x])

/-- One SHA-256 compression round with schedule word `w` and constant `k`. -/
def sha2Round (s : Hash8) (wk : Nat × Nat) : Hash8 :=
  let t1 := u32 (s.h + bigSig1 s.e + sha2Ch s.e s.f s.g + wk.2 + wk.1)
  let t2 := u32 (bigSig0 s.a + sha2Maj s.a s.b s.c)
  ⟨u32 (t1 + t2), s.a, s.b, s.c, u32 (s.d + t1), s.e, s.f, s.g⟩

/-- Compress one 64-byte block into the running hash state. -/
def sha2Block (hv : Hash8) (block : List Nat) : Hash8 :=
  let w := sha2Extend 48 (bytesToWords block)
  let s := (w.zip sha2K).foldl sha2Round hv
  ⟨u32 (hv.a + s.a), u32 (hv.b + s.b), u32 (hv.c + s.c), u32 (hv.d + s.d),
   u32 (hv.e + s.e), u32 (hv.f + s.f), u32 (hv.g + s.g), u32 (hv.h + s.h)⟩

/-- Big-endian bytes of a 64-bit value. -/
def bytesBE8 (n : Nat) : List Nat :=
  [(n >>> 56) % 256, (n >>> 48) % 256, (n >>> 40) % 256, (n >>> 32) % 256,
   (n >>> 24) % 256, (n >>> 16) % 256, (n >>> 8) % 256, n % 256]

/-- Big-endian bytes of a 32-bit value. -/
def bytesBE4 (n : Nat) : List Nat :=
  [(n >>> 24) % 256, (n >>> 16) % 256, (n >>> 8) % 256, n % 256]

/-- SHA-256 padding: append `0x80`, zeros, and the 64-bit bit length. -/
def sha2Pad (msg : List Nat) : List Nat :=
  let L := msg.length
  let k := (119 - L % 64) % 64
  msg ++ [128] ++ List.replicate k 0 ++ bytesBE8 (8 * L)

/-- Split a byte list into successive 64-byte blocks (fuel-driven). -/
def chunks64 : Nat → List Nat → List (List Nat)
  | 0, _ => []
  | _, [] => []
  | fuel + 1, l => l.take 64 :: chunks64 fuel (l.drop 64)

/-- SHA-256 of a byte list, as its 32-byte digest; Go's `crypto/sha256`. -/
def sha256 (msg : List Nat) : List Nat :=
  let p := sha2Pad msg
  let hv := (chunks64 p.length p).foldl sha2Block sha2Init
  bytesBE4 hv.a ++ bytesBE4 hv.b ++ bytesBE4 hv.c ++ bytesBE4 hv.d ++
  bytesBE4 hv.e ++ bytesBE4 hv.f ++ bytesBE4 hv.g ++ bytesBE4 hv.h

/-- Value of an ASCII hex digit; Go's `hex.fromHexChar` (accepts both cases). -/
def hexDigitVal (c : Nat) : Option Nat :=
  if 48 ≤ c ∧ c ≤ 57 then some (c - 48)
  else if 97 ≤ c ∧ c ≤ 102 then some (c - 97 + 10)
  else if 65 ≤ c ∧ c ≤ 70 then some (c - 65 + 10)
  else none

/-- Go's `hex.DecodeString` on the bytes of the string: decodes digit pairs,
failing on a non-hex byte or an odd length. -/
def hexDecode : List Nat → Option (List Nat)
  | [] => some []
  | [_] => none
  | a :: b :: rest =>
    match hexDigitVal a, hexDigitVal b, hexDecode rest with
    | some da, some db, some ds => some ((da * 16 + db) :: ds)
    | _, _, _ => none

/-- Lowercase ASCII hex digit of a value < 16. -/
def hexDigitChar (n : Nat) : Nat := if n < 10 then 48 + n else 87 + n

/-- Lowercase hex encoding of a byte list, as ASCII bytes. -/
def hexEncode : List Nat → List Nat
  | [] => []
  | b :: rest => hexDigitChar (b / 16) :: hexDigitChar (b % 16) :: hexEncode rest

/-- A file on disk: either readable content, or present but unreadable
(its `Read` calls fail; `os.Stat` still succeeds). -/
inductive FileEntry where
  | readable (content : List Nat)
  | unreadable
deriving DecidableEq, Repr

/-- The filesystem: an association list from path to file entry
(the head entry for a path shadows older ones). -/
def FS := List (String × FileEntry)

instance : DecidableEq FS := fun a b => List.hasDecEq a b

/-- Look a path up in the filesystem; `none` models a missing file. -/
def fsGet : FS → String → Option FileEntry
  | [], _ => none
  | (q, e) :: rest, p => if q = p then some e else fsGet rest p

/-- Create or overwrite the file at `p`. -/
def fsSet (fs : FS) (p : String) (e : FileEntry) : FS := (p, e) :: fs

/-- An HTTP response: status code and body. -/
structure HttpResp where
  status : Nat
  body : List Nat
deriving DecidableEq, Repr

/-- The remote origin: URL to response; an absent URL models a transport
error from `http.Get`. -/
def Net := List (String × HttpResp)

/-- Look a URL up at the origin. -/
def netGet : Net → String → Option HttpResp
  | [], _ => none
  | (q, r) :: rest, u => if q = u then some r else netGet rest u

/-- Structured counterpart of the fetcher's wrapped error strings; each
constructor records the failing program point. -/
inductive Err where
  /-- `http.Get` returned a transport error for this URL. -/
  | httpGetError (url : String)
  /-- the origin answered this URL with a non-200 status. -/
  | httpStatusError (url : String) (status : Nat)
  /-- `os.Open` failed on the digest (`.sha256`) file. -/
  | openHashError (path : String)
  /-- `io.ReadAll` failed on the digest file. -/
  | readHashError (path : String)
  /-- `hex.DecodeString` rejected the digest file's first token. -/
  | decodeDigestError (path : String)
  /-- `os.Open` failed on the artifact (`.car`) file. -/
  | openBundleError (path : String)
  /-- `io.Copy` into the hash failed on the artifact file. -/
  | readBundleError (path : String)
  /-- the computed digest differs from the expected digest. -/
  | hashMismatch
deriving DecidableEq, Repr

instance {ε α : Type} [DecidableEq ε] [DecidableEq α] : DecidableEq (Except ε α) := fun a b =>
  match a, b with
  | .ok x, .ok y =>
    if h : x = y then isTrue (by rw [h]) else isFalse (fun hc => by cases hc; exact h rfl)
  | .error x, .error y =>
    if h : x = y then isTrue (by rw [h]) else isFalse (fun hc => by cases hc; exact h rfl)
  | .ok _, .error _ => isFalse (fun hc => by cases hc)
  | .error _, .ok _ => isFalse (fun hc => by cases hc)

/-- The spec's RetrievalError category: network transport failure or
non-success response status during download. -/
def isRetrievalError : Err → Bool
  | .httpGetError _ => true
  | .httpStatusError _ _ => true
  | _ => false

/-- The spec's IntegrityError category: digest file unreadable or
unparseable, or digest mismatch. -/
def isIntegrityError : Err → Bool
  | .openHashError _ => true
  | .readHashError _ => true
  | .decodeDigestError _ => true
  | .hashMismatch => true
  | _ => false

/-- The spec's FilesystemError category: the artifact file cannot be opened
or read for reasons unrelated to content. -/
def isFilesystemError : Err → Bool
  | .openBundleError _ => true
  | .readBundleError _ => true
  | _ => false

/-- `filepath.Join` for clean components. -/
def pjoin (a b : String) : String := a ++ "/" ++ b

/-- The `BundleFetcher` struct: its bundle directory path. -/
structure BundleFetcher where
  path : String
deriving DecidableEq, Repr

/-- `NewBundleFetcher`: joins `basepath` with `"builtin-actors"`
(`os.MkdirAll` is modelled as succeeding). -/
def NewBundleFetcher (basepath : String) : BundleFetcher :=
  ⟨pjoin basepath "builtin-actors"⟩

/-- The `Version` argument of `Fetch` (`type Version uint` elsewhere in lotus). -/
abbrev Version := Nat

/-- `fmt.Sprintf("builtin-actors-%s", netw)`. -/
def bundleName (netw : String) : String := "builtin-actors-" ++ netw

/-- `fmt.Sprintf("%s.car", bundleName)`. -/
def bundleFile (netw : String) : String := bundleName netw ++ ".car"

/-- `fmt.Sprintf("%s.sha256", bundleName)`. -/
def bundleHash (netw : String) : String := bundleName netw ++ ".sha256"

/-- `filepath.Join(b.path, fmt.Sprintf("v%d", version), release)` — the
versioned bundle directory; it does not depend on the network name. -/
def bundleBasePath (b : BundleFetcher) (version : Version) (release : String) : String :=
  pjoin (pjoin b.path ("v" ++ toString version)) release

/-- The artifact's full path, `filepath.Join(bundleBasePath, bundleFile)`. -/
def bundleFilePath (b : BundleFetcher) (version : Version) (release netw : String) : String :=
  pjoin (bundleBasePath b version release) (bundleFile netw)

/-- The digest file's full path, `filepath.Join(bundleBasePath, bundleHash)`. -/
def bundleHashPath (b : BundleFetcher) (version : Version) (release netw : String) : String :=
  pjoin (bundleBasePath b version release) (bundleHash netw)

/-- The release download URL template,
`https://github.com/filecoin-project/builtin-actors/releases/download/<release>/<name>`. -/
def downloadUrl (release name : String) : String :=
  "https://github.com/filecoin-project/builtin-actors/releases/download/" ++ release ++ "/" ++ name

/-- `(*BundleFetcher).fetchURL`: GET the URL; fail on transport error or a
non-200 status; otherwise create/truncate the file at `path` and write the
body.  Returns the result and the updated filesystem. -/
def fetchURL (net : Net) (url path : String) (fs : FS) : Except Err Unit × FS :=
  match netGet net url with
  | none => (.error (.httpGetError url), fs)
  | some resp =>
    if resp.status ≠ 200 then (.error (.httpStatusError url resp.status), fs)
    else (.ok (), fsSet fs path (.readable resp.body))

/-- `(*BundleFetcher).fetch`: download the digest file, then the artifact
file, aborting on the first failure.  Also returns the ordered list of URLs
requested. -/
def fetch (net : Net) (release bundleBasePath bundleFile bundleHash : String) (fs : FS) :
    Except Err Unit × FS × List String :=
  let bundleHashUrl := downloadUrl release bundleHash
  let bundleHashPath := pjoin bundleBasePath bundleHash
  match fetchURL net bundleHashUrl bundleHashPath fs with
  | (.error e, fs1) => (.error e, fs1, [bundleHashUrl])
  | (.ok _, fs1) =>
    let bundleFileUrl := downloadUrl release bundleFile
    let bundleFilePath := pjoin bundleBasePath bundleFile
    match fetchURL net bundleFileUrl bundleFilePath fs1 with
    | (.error e, fs2) => (.error e, fs2, [bundleHashUrl, bundleFileUrl])
    | (.ok _, fs2) => (.ok (), fs2, [bundleHashUrl, bundleFileUrl])

/-- `(*BundleFetcher).check`: read the digest file, take the prefix of its
bytes before the first space (`strings.Split(string(bs), " ")[0]`), hex-decode
it, hash the artifact file with SHA-256 and compare
(`bytes.Equal(digest, expectedDigest)`). -/
def check (fs : FS) (bundleBasePath bundleFile bundleHash : String) : Except Err Unit :=
  let bundleHashPath := pjoin bundleBasePath bundleHash
  match fsGet fs bundleHashPath with
  | none => .error (.openHashError bundleHashPath)
  | some .unreadable => .error (.readHashError bundleHashPath)
  | some (.readable bs) =>
    let hashHex := bs.takeWhile (fun c => c != 32)
    match hexDecode hashHex with
    | none => .error (.decodeDigestError bundleHashPath)
    | some expectedDigest =>
      let bundleFilePath := pjoin bundleBasePath bundleFile
      match fsGet fs bundleFilePath with
      | none => .error (.openBundleError bundleFilePath)
      | some .unreadable => .error (.readBundleError bundleFilePath)
      | some (.readable content) =>
        if sha256 content = expectedDigest then .ok () else .error .hashMismatch

/-- The shared tail of `(*BundleFetcher).Fetch` (its lines after the
cache-hit return): fetch both files, check the result, and return the
artifact path on success, surfacing any fetch or check error. -/
def fetchAndCheck (b : BundleFetcher) (version : Version) (release netw : String)
    (net : Net) (fs : FS) : Except Err String × FS × List String :=
  match fetch net release (bundleBasePath b version release) (bundleFile netw) (bundleHash netw) fs with
  | (.error e, fs1, calls) => (.error e, fs1, calls)
  | (.ok _, fs1, calls) =>
    match check fs1 (bundleBasePath b version release) (bundleFile netw) (bundleHash netw) with
    | .error e => (.error e, fs1, calls)
    | .ok _ => (.ok (bundleFilePath b version release netw), fs1, calls)

/-- `(*BundleFetcher).Fetch`: if the artifact file exists (`os.Stat`) and
checks out, return its path with no network access; otherwise (re-)fetch
both files and check again (`fetchAndCheck`).  Returns the Go result, the
final filesystem, and the ordered list of URLs requested. -/
def Fetch (b : BundleFetcher) (version : Version) (release netw : String)
    (net : Net) (fs : FS) : Except Err String × FS × List String :=
  match fsGet fs (bundleFilePath b version release netw) with
  | some _ =>
    match check fs (bundleBasePath b version release) (bundleFile netw) (bundleHash netw) with
    | .ok _ => (.ok (bundleFilePath b version release netw), fs, [])
    | .error _ => fetchAndCheck b version release netw net fs
  | none => fetchAndCheck b version release netw net fs

/-- Characters strictly before the last `'/'` of the list. -/
def dirnameChars : List Char → List Char
  | [] => []
  | c :: rest => if rest.contains (Char.ofNat 47) then c :: dirnameChars rest else []

/-- `filepath.Dir` for clean slash-containing paths: everything strictly
before the last slash. -/
def dirname (s : String) : String := ⟨dirnameChars s.data⟩

/-! ## Helper lemmas -/

theorem fsGet_fsSet_self (fs : FS) (p : String) (e : FileEntry) :
    fsGet (fsSet fs p e) p = some e := by
  simp [fsGet, fsSet]

theorem fsGet_fsSet_ne (fs : FS) (p q : String) (e : FileEntry) (h : p ≠ q) :
    fsGet (fsSet fs p e) q = fsGet fs q := by
  simp [fsGet, fsSet, h]

theorem pjoin_length (a b : String) : (pjoin a b).length = a.length + 1 + b.length := by
  have h1 : ("/" : String).length = 1 := rfl
  simp only [pjoin, String.length_append, h1]

theorem bundleFilePath_ne_bundleHashPath (b : BundleFetcher) (version : Version)
    (release netw : String) :
    bundleFilePath b version release netw ≠ bundleHashPath b version release netw := by
  intro h
  have hl := congrArg String.length h
  have h4 : (".car" : String).length = 4 := rfl
  have h7 : (".sha256" : String).length = 7 := rfl
  simp only [bundleFilePath, bundleHashPath, bundleFile, bundleHash, pjoin_length,
    String.length_append, h4, h7] at hl
  omega

/-- `check` only succeeds when the artifact file exists and is readable. -/
theorem check_ok_artifact_readable (fs : FS) (bbp bf bh : String)
    (h : check fs bbp bf bh = .ok ()) :
    ∃ c, fsGet fs (pjoin bbp bf) = some (.readable c) := by
  simp only [check] at h
  split at h
  · simp at h
  · simp at h
  · split at h
    · simp at h
    · split at h
      · simp at h
      · simp at h
      · rename_i content heq
        exact ⟨content, heq⟩

/-! ## Concrete scenario used by the witnesses -/

/-- The fetcher rooted at `/tmp/cache`. -/
def bfW : BundleFetcher := NewBundleFetcher "/tmp/cache"

/-- The versioned bundle directory of the end-to-end scenario. -/
def bbpW : String := bundleBasePath bfW 8 "v8.0.0"

/-- `builtin-actors-mainnet.car`. -/
def carW : String := bundleFile "mainnet"

/-- `builtin-actors-mainnet.sha256`. -/
def shaW : String := bundleHash "mainnet"

/-- The artifact's full path in the scenario. -/
def fpW : String := pjoin bbpW carW

/-- The digest file's full path in the scenario. -/
def hpW : String := pjoin bbpW shaW

/-- A small artifact content, the bytes of `"abc"`. -/
def contentW : List Nat := [97, 98, 99]

/-- The digest file content matching `contentW`. -/
def digestFileW : List Nat := hexEncode (sha256 contentW)

/-- A filesystem holding the artifact and its matching digest file. -/
def fsGoodW : FS := [(hpW, .readable digestFileW), (fpW, .readable contentW)]

/-- A mutated artifact content (`"abd"`), one byte away from `contentW`. -/
def contentMutW : List Nat := [97, 98, 100]

/-- A filesystem holding the mutated artifact under the original digest file. -/
def fsMutW : FS := [(hpW, .readable digestFileW), (fpW, .readable contentMutW)]

/-! ## C1 -/

/-- C1: with the digest file readable and its first token decoding to `d`,
and the artifact readable with content `C`, `check` succeeds exactly when
SHA-256(C) equals `d` over the full digest (so a proper prefix of the digest
is never accepted); and any content whose SHA-256 differs from the expected
digest — in particular any byte mutation of `C` that changes the hash — is
rejected with the hash-mismatch IntegrityError. -/
theorem check_hash_enforcement (fs : FS) (bbp bf bh : String) (hb C d : List Nat)
    (hhash : fsGet fs (pjoin bbp bh) = some (.readable hb))
    (hdec : hexDecode (hb.takeWhile (fun c => c != 32)) = some d)
    (hfile : fsGet fs (pjoin bbp bf) = some (.readable C)) :
    (check fs bbp bf bh = .ok () ↔ sha256 C = d) ∧
    (d ≠ sha256 C → check fs bbp bf bh = .error .hashMismatch) ∧
    (∀ C' fs', sha256 C' ≠ d →
      fsGet fs' (pjoin bbp bh) = some (.readable hb) →
      fsGet fs' (pjoin bbp bf) = some (.readable C') →
      check fs' bbp bf bh = .error .hashMismatch) := by
  refine ⟨?_, ?_, ?_⟩
  · by_cases hsd : sha256 C = d
    · simp [check, hhash, hdec, hfile, hsd]
    · simp [check, hhash, hdec, hfile, hsd]
  · intro hne
    simp [check, hhash, hdec, hfile, Ne.symm hne]
  · intro C' fs' hne hh' hf'
    simp [check, hh', hdec, hf', hne]

set_option maxRecDepth 1000000 in
/-- C1 witness: for the concrete content `"abc"` with its correct digest
file, `check` accepts, and for the one-byte mutation `"abd"` it reports the
hash mismatch. -/
theorem check_hash_enforcement_witness :
    check fsGoodW bbpW carW shaW = .ok () ∧
    check fsMutW bbpW carW shaW = .error .hashMismatch := by
  refine ⟨?_, ?_⟩
  · exact (check_hash_enforcement fsGoodW bbpW carW shaW digestFileW contentW
      (sha256 contentW) (by rfl) (by rfl) (by rfl)).1.mpr (by rfl)
  · exact (check_hash_enforcement fsGoodW bbpW carW shaW digestFileW contentW
      (sha256 contentW) (by rfl) (by rfl) (by rfl)).2.2 contentMutW fsMutW
      (by decide) (by rfl) (by rfl)

/-! ## Rewriting bridges between `pjoin` forms and named path forms -/

theorem pjoin_bundleFile (b : BundleFetcher) (version : Version) (release netw : String) :
    pjoin (bundleBasePath b version release) (bundleFile netw) =
      bundleFilePath b version release netw := rfl

theorem pjoin_bundleHash (b : BundleFetcher) (version : Version) (release netw : String) :
    pjoin (bundleBasePath b version release) (bundleHash netw) =
      bundleHashPath b version release netw := rfl

/-- Inversion for the fetch-then-check tail: a successful run returns the
artifact path, and the final filesystem passes `check`. -/
theorem fetchAndCheck_ok_inv (b : BundleFetcher) (version : Version)
    (release netw : String) (net : Net) (fs : FS) (p : String) (fs1 : FS)
    (calls : List String)
    (h : fetchAndCheck b version release netw net fs = (.ok p, fs1, calls)) :
    p = bundleFilePath b version release netw ∧
    check fs1 (bundleBasePath b version release) (bundleFile netw) (bundleHash netw) = .ok () := by
  simp only [fetchAndCheck] at h
  split at h
  · simp at h
  · split at h
    · simp at h
    · rename_i fs' calls' hfetch u hchk
      simp only [Prod.mk.injEq, Except.ok.injEq] at h
      obtain ⟨hp, hfs, _⟩ := h
      subst hp
      subst hfs
      cases u
      exact ⟨rfl, hchk⟩

/-- Inversion for `Fetch`: any successful call returns the artifact path,
and the filesystem it hands back passes `check`. -/
theorem Fetch_ok_inv (b : BundleFetcher) (version : Version) (release netw : String)
    (net : Net) (fs : FS) (p : String) (fs1 : FS) (calls : List String)
    (h : Fetch b version release netw net fs = (.ok p, fs1, calls)) :
    p = bundleFilePath b version release netw ∧
    check fs1 (bundleBasePath b version release) (bundleFile netw) (bundleHash netw) = .ok () := by
  simp only [Fetch] at h
  split at h
  · split at h
    · rename_i u hchk
      simp only [Prod.mk.injEq, Except.ok.injEq] at h
      obtain ⟨hp, hfs, _⟩ := h
      subst hp
      subst hfs
      cases u
      exact ⟨rfl, hchk⟩
    · exact fetchAndCheck_ok_inv b version release netw net fs p fs1 calls h
  · exact fetchAndCheck_ok_inv b version release netw net fs p fs1 calls h

/-! ## C2 -/

/-- C2: when the artifact file exists but `check` fails for any reason
(any error `e`), `Fetch` does not surface `e`: it re-fetches both files from
the origin, and when the re-fetched pair verifies it returns the artifact
path successfully, with the two downloads as its only network calls. -/
theorem fetch_self_healing (b : BundleFetcher) (version : Version)
    (release netw : String) (net : Net) (fs : FS) (entry : FileEntry) (e : Err)
    (hb fb : List Nat)
    (hstat : fsGet fs (bundleFilePath b version release netw) = some entry)
    (hfail : check fs (bundleBasePath b version release) (bundleFile netw) (bundleHash netw) =
      .error e)
    (hhash : netGet net (downloadUrl release (bundleHash netw)) = some ⟨200, hb⟩)
    (hfile : netGet net (downloadUrl release (bundleFile netw)) = some ⟨200, fb⟩)
    (hok : check (fsSet (fsSet fs (bundleHashPath b version release netw) (.readable hb))
        (bundleFilePath b version release netw) (.readable fb))
        (bundleBasePath b version release) (bundleFile netw) (bundleHash netw) = .ok ()) :
    Fetch b version release netw net fs =
      (.ok (bundleFilePath b version release netw),
       fsSet (fsSet fs (bundleHashPath b version release netw) (.readable hb))
         (bundleFilePath b version release netw) (.readable fb),
       [downloadUrl release (bundleHash netw), downloadUrl release (bundleFile netw)]) := by
  simp [Fetch, fetchAndCheck, fetch, fetchURL, pjoin_bundleFile, pjoin_bundleHash,
    hstat, hfail, hhash, hfile, hok]

/-! ## Concrete self-healing scenario -/

/-- A corrupt artifact under the digest file for `contentW`. -/
def fsCorruptW : FS := [(hpW, .readable digestFileW), (fpW, .readable [1, 2, 3])]

/-- The origin serving the correct digest and artifact for the scenario. -/
def netW : Net := [(downloadUrl "v8.0.0" shaW, ⟨200, digestFileW⟩),
                   (downloadUrl "v8.0.0" carW, ⟨200, contentW⟩)]

set_option maxRecDepth 1000000 in
/-- C2 witness: with a corrupt artifact on disk and a healthy origin,
`Fetch` re-downloads both files and succeeds. -/
theorem fetch_self_healing_witness :
    Fetch bfW 8 "v8.0.0" "mainnet" netW fsCorruptW =
      (.ok fpW,
       fsSet (fsSet fsCorruptW hpW (.readable digestFileW)) fpW (.readable contentW),
       [downloadUrl "v8.0.0" shaW, downloadUrl "v8.0.0" carW]) :=
  fetch_self_healing bfW 8 "v8.0.0" "mainnet" netW fsCorruptW
    (.readable [1, 2, 3]) .hashMismatch digestFileW contentW
    (by rfl) (by rfl) (by rfl) (by rfl) (by rfl)

/-! ## C3 -/

/-- C3: if the artifact file exists and `check` succeeds, `Fetch` returns the
artifact path immediately with the filesystem untouched and zero network
calls; consequently a second `Fetch` right after any successful one returns
the same path and performs zero network calls. -/
theorem fetch_cache_hit_idempotent (b : BundleFetcher) (version : Version)
    (release netw : String) (net : Net) :
    (∀ fs entry, fsGet fs (bundleFilePath b version release netw) = some entry →
      check fs (bundleBasePath b version release) (bundleFile netw) (bundleHash netw) = .ok () →
      Fetch b version release netw net fs =
        (.ok (bundleFilePath b version release netw), fs, [])) ∧
    (∀ fs p fs1 calls, Fetch b version release netw net fs = (.ok p, fs1, calls) →
      Fetch b version release netw net fs1 = (.ok p, fs1, [])) := by
  constructor
  · intro fs entry hstat hchk
    simp [Fetch, hstat, hchk]
  · intro fs p fs1 calls h
    obtain ⟨hp, hchk⟩ := Fetch_ok_inv b version release netw net fs p fs1 calls h
    obtain ⟨c, hc⟩ := check_ok_artifact_readable fs1 _ _ _ hchk
    subst hp
    have hc' : fsGet fs1 (bundleFilePath b version release netw) = some (.readable c) := hc
    simp [Fetch, hc', hchk]

set_option maxRecDepth 1000000 in
/-- C3 witness: on the concrete valid cached pair, `Fetch` is a cache hit
returning the path with zero network calls. -/
theorem fetch_cache_hit_idempotent_witness :
    Fetch bfW 8 "v8.0.0" "mainnet" [] fsGoodW = (.ok fpW, fsGoodW, []) :=
  (fetch_cache_hit_idempotent bfW 8 "v8.0.0" "mainnet" []).1 fsGoodW
    (.readable contentW) (by rfl) (by rfl)

/-- When the artifact file is absent, or present but failing `check`,
`Fetch` proceeds to the fetch-then-check tail. -/
theorem Fetch_not_hit (b : BundleFetcher) (version : Version) (release netw : String)
    (net : Net) (fs : FS)
    (hmiss : fsGet fs (bundleFilePath b version release netw) = none ∨
      ∃ e0, check fs (bundleBasePath b version release) (bundleFile netw) (bundleHash netw) =
        .error e0) :
    Fetch b version release netw net fs = fetchAndCheck b version release netw net fs := by
  rcases hstat : fsGet fs (bundleFilePath b version release netw) with _ | entry
  · simp [Fetch, hstat]
  · rcases hmiss with hnone | ⟨e0, he0⟩
    · rw [hstat] at hnone
      exact Option.noConfusion hnone
    · simp [Fetch, hstat, he0]

/-! ## C4 -/

/-- C4: on the fetch path, the digest file is downloaded first; whenever its
download fails (transport error or a non-success status), `Fetch` returns a
RetrievalError, the artifact URL is never requested, and the filesystem is
unchanged — no artifact file is written. -/
theorem digest_download_failure (b : BundleFetcher) (version : Version)
    (release netw : String) (net : Net) (fs : FS)
    (hmiss : fsGet fs (bundleFilePath b version release netw) = none ∨
      ∃ e0, check fs (bundleBasePath b version release) (bundleFile netw) (bundleHash netw) =
        .error e0)
    (hfail : netGet net (downloadUrl release (bundleHash netw)) = none ∨
      ∃ r, netGet net (downloadUrl release (bundleHash netw)) = some r ∧ r.status ≠ 200) :
    (∃ e, isRetrievalError e = true ∧
      Fetch b version release netw net fs =
        (.error e, fs, [downloadUrl release (bundleHash netw)])) ∧
    (fetch net release (bundleBasePath b version release) (bundleFile netw)
        (bundleHash netw) fs).2.2.head? = some (downloadUrl release (bundleHash netw)) := by
  rcases hfail with hnone | ⟨r, hr, hst⟩
  · have hfetch : fetch net release (bundleBasePath b version release) (bundleFile netw)
        (bundleHash netw) fs =
        (.error (.httpGetError (downloadUrl release (bundleHash netw))), fs,
         [downloadUrl release (bundleHash netw)]) := by
      simp [fetch, fetchURL, hnone]
    refine ⟨⟨.httpGetError (downloadUrl release (bundleHash netw)), rfl, ?_⟩, ?_⟩
    · rw [Fetch_not_hit b version release netw net fs hmiss]
      simp [fetchAndCheck, hfetch]
    · simp [hfetch]
  · have hfetch : fetch net release (bundleBasePath b version release) (bundleFile netw)
        (bundleHash netw) fs =
        (.error (.httpStatusError (downloadUrl release (bundleHash netw)) r.status), fs,
         [downloadUrl release (bundleHash netw)]) := by
      simp [fetch, fetchURL, hr, hst]
    refine ⟨⟨.httpStatusError (downloadUrl release (bundleHash netw)) r.status, rfl, ?_⟩, ?_⟩
    · rw [Fetch_not_hit b version release netw net fs hmiss]
      simp [fetchAndCheck, hfetch]
    · simp [hfetch]

set_option maxRecDepth 1000000 in
/-- C4 witness: with an empty cache and an unreachable origin, `Fetch`
fails with a RetrievalError after requesting only the digest URL, writing
nothing. -/
theorem digest_download_failure_witness :
    (∃ e, isRetrievalError e = true ∧
      Fetch bfW 8 "v8.0.0" "mainnet" [] [] =
        (.error e, [], [downloadUrl "v8.0.0" (bundleHash "mainnet")])) ∧
    (fetch [] "v8.0.0" (bundleBasePath bfW 8 "v8.0.0") (bundleFile "mainnet")
        (bundleHash "mainnet") []).2.2.head? =
      some (downloadUrl "v8.0.0" (bundleHash "mainnet")) :=
  digest_download_failure bfW 8 "v8.0.0" "mainnet" [] [] (Or.inl rfl) (Or.inl rfl)

/-! ## C5 -/

/-- C5: when both downloads succeed but `check` fails on the freshly
retrieved pair, `Fetch` surfaces that error and returns no path, after
exactly the two downloads (no second fetch); and the surfaced error is an
IntegrityError (on freshly written, readable files the only possible check
failures are digest-decode failure and hash mismatch). -/
theorem post_fetch_check_failure (b : BundleFetcher) (version : Version)
    (release netw : String) (net : Net) (fs : FS) (hb fb : List Nat) (e : Err)
    (hmiss : fsGet fs (bundleFilePath b version release netw) = none ∨
      ∃ e0, check fs (bundleBasePath b version release) (bundleFile netw) (bundleHash netw) =
        .error e0)
    (hhash : netGet net (downloadUrl release (bundleHash netw)) = some ⟨200, hb⟩)
    (hfile : netGet net (downloadUrl release (bundleFile netw)) = some ⟨200, fb⟩)
    (hchk : check (fsSet (fsSet fs (bundleHashPath b version release netw) (.readable hb))
        (bundleFilePath b version release netw) (.readable fb))
        (bundleBasePath b version release) (bundleFile netw) (bundleHash netw) = .error e) :
    Fetch b version release netw net fs =
      (.error e,
       fsSet (fsSet fs (bundleHashPath b version release netw) (.readable hb))
         (bundleFilePath b version release netw) (.readable fb),
       [downloadUrl release (bundleHash netw), downloadUrl release (bundleFile netw)]) ∧
    isIntegrityError e = true := by
  constructor
  · rw [Fetch_not_hit b version release netw net fs hmiss]
    simp [fetchAndCheck, fetch, fetchURL, pjoin_bundleHash, pjoin_bundleFile,
      hhash, hfile, hchk]
  · have h1 : fsGet (fsSet (fsSet fs (bundleHashPath b version release netw) (.readable hb))
        (bundleFilePath b version release netw) (.readable fb))
        (pjoin (bundleBasePath b version release) (bundleHash netw)) =
        some (.readable hb) := by
      rw [pjoin_bundleHash]
      rw [fsGet_fsSet_ne _ _ _ _ (bundleFilePath_ne_bundleHashPath b version release netw)]
      exact fsGet_fsSet_self _ _ _
    have h2 : fsGet (fsSet (fsSet fs (bundleHashPath b version release netw) (.readable hb))
        (bundleFilePath b version release netw) (.readable fb))
        (pjoin (bundleBasePath b version release) (bundleFile netw)) =
        some (.readable fb) := by
      rw [pjoin_bundleFile]
      exact fsGet_fsSet_self _ _ _
    simp only [check, h1, h2] at hchk
    split at hchk
    · simp only [Except.error.injEq] at hchk
      subst hchk
      rfl
    · split at hchk
      · exact absurd hchk (by simp)
      · simp only [Except.error.injEq] at hchk
        subst hchk
        rfl

/-- An origin whose artifact body does not match the digest file it serves. -/
def netBadW : Net := [(downloadUrl "v8.0.0" shaW, ⟨200, digestFileW⟩),
                      (downloadUrl "v8.0.0" carW, ⟨200, [9, 9, 9]⟩)]

set_option maxRecDepth 1000000 in
/-- C5 witness: an empty cache and an origin serving a mismatching pair make
`Fetch` fail with the hash-mismatch IntegrityError after two downloads. -/
theorem post_fetch_check_failure_witness :
    Fetch bfW 8 "v8.0.0" "mainnet" netBadW [] =
      (.error .hashMismatch,
       fsSet (fsSet [] hpW (.readable digestFileW)) fpW (.readable [9, 9, 9]),
       [downloadUrl "v8.0.0" shaW, downloadUrl "v8.0.0" carW]) ∧
    isIntegrityError .hashMismatch = true :=
  post_fetch_check_failure bfW 8 "v8.0.0" "mainnet" netBadW [] digestFileW [9, 9, 9]
    .hashMismatch (Or.inl rfl) (by rfl) (by rfl) (by rfl)

/-! ## C6 -/

theorem append_left_cancel_str {a b c : String} (h : a ++ b = a ++ c) : b = c := by
  apply String.ext
  have hd := congrArg String.data h
  simp only [String.data_append] at hd
  exact List.append_cancel_left hd

theorem append_right_cancel_str {a b c : String} (h : a ++ c = b ++ c) : a = b := by
  apply String.ext
  have hd := congrArg String.data h
  simp only [String.data_append] at hd
  exact List.append_cancel_right hd

/-- The artifact filename for `calibrationnet`. -/
def calW : String := bundleFile "calibrationnet"

/-- The digest filename for `calibrationnet`. -/
def shaCalW : String := bundleHash "calibrationnet"

/-- The `calibrationnet` artifact's full path in the scenario. -/
def fpCalW : String := pjoin bbpW calW

/-- An origin serving valid pairs for both networks of the scenario. -/
def netBothW : Net := [(downloadUrl "v8.0.0" shaW, ⟨200, digestFileW⟩),
                       (downloadUrl "v8.0.0" carW, ⟨200, contentW⟩),
                       (downloadUrl "v8.0.0" shaCalW, ⟨200, digestFileW⟩),
                       (downloadUrl "v8.0.0" calW, ⟨200, contentW⟩)]

set_option maxRecDepth 1000000 in
/-- C6 counterexample: two successful `Fetch` calls with the same version and
release but different networks produce their artifacts in the *same*
directory — the versioned directory does not depend on the network, so the
directory paths are not disjoint (only the filenames differ). -/
theorem network_directory_not_disjoint :
    ("mainnet" : String) ≠ "calibrationnet" ∧
    (Fetch bfW 8 "v8.0.0" "mainnet" netBothW []).1 = .ok fpW ∧
    (Fetch bfW 8 "v8.0.0" "calibrationnet" netBothW []).1 = .ok fpCalW ∧
    dirname fpW = dirname fpCalW := by
  exact ⟨by decide, by rfl, by rfl, by rfl⟩

/-- C6 amended: for the same version and release and distinct (slash-free)
network names, the artifact *file* paths are distinct — the two calls never
collide — even though they share the versioned directory. -/
theorem network_no_collision (b : BundleFetcher) (version : Version)
    (release netw1 netw2 : String)
    (hc1 : (Char.ofNat 47) ∉ netw1.data) (hc2 : (Char.ofNat 47) ∉ netw2.data)
    (hne : netw1 ≠ netw2) :
    bundleFilePath b version release netw1 ≠ bundleFilePath b version release netw2 := by
  intro h
  apply hne
  have h1 : bundleFile netw1 = bundleFile netw2 := by
    unfold bundleFilePath pjoin at h
    exact append_left_cancel_str h
  have h2 : bundleName netw1 = bundleName netw2 := by
    unfold bundleFile at h1
    exact append_right_cancel_str h1
  unfold bundleName at h2
  exact append_left_cancel_str h2

/-- C6 amended witness: the mainnet and calibrationnet artifact paths of the
concrete scenario differ. -/
theorem network_no_collision_witness :
    bundleFilePath bfW 8 "v8.0.0" "mainnet" ≠ bundleFilePath bfW 8 "v8.0.0" "calibrationnet" :=
  network_no_collision bfW 8 "v8.0.0" "mainnet" "calibrationnet"
    (by decide) (by decide) (by decide)

/-! ## C7 -/

/-- The claim's reading of the digest-file grammar (C7): the first
*whitespace*-delimited token — space, tab, LF or CR would all end the
token.  The source instead splits on the space character only. -/
def specFirstToken (bs : List Nat) : List Nat :=
  bs.takeWhile (fun c => !(c == 32 || c == 9 || c == 10 || c == 13))

/-- A digest file whose hex digest is terminated by a newline. -/
def digestFileNlW : List Nat := hexEncode (sha256 contentW) ++ [10]

/-- Filesystem with the newline-terminated digest file and matching artifact. -/
def fsNlW : FS := [(hpW, .readable digestFileNlW), (fpW, .readable contentW)]

set_option maxRecDepth 1000000 in
/-- C7 counterexample: in a digest file ending in `<hex>\n`, the first
whitespace-delimited token is the hex digest of the artifact, so by the
claim `check` must accept; the code splits on spaces only, treats the
newline as part of the token, and fails with the decode IntegrityError. -/
theorem check_whitespace_token_counterexample :
    hexDecode (specFirstToken digestFileNlW) = some (sha256 contentW) ∧
    check fsNlW bbpW carW shaW = .error (.decodeDigestError hpW) := ⟨by rfl, by rfl⟩

/-- A space-free token followed by a space is exactly the space-delimited
first token of the combined byte list. -/
theorem takeWhile_space_of_append (t rest : List Nat)
    (hall : t.all (fun c => c != 32) = true) :
    (t ++ 32 :: rest).takeWhile (fun c => c != 32) = t := by
  induction t with
  | nil => simp
  | cons c cs ih =>
    simp only [List.all_cons, Bool.and_eq_true] at hall
    rw [List.cons_append, List.takeWhile_cons, hall.1]
    simp [ih hall.2]

/-- C7 amended: `check` parses the first *space*-delimited token of the
digest file as hex (only an ASCII space ends the token), ignores everything
after the first space, and fails with the decode IntegrityError exactly when
that token does not decode as hex; when it decodes to `d`, acceptance is
equivalent to SHA-256(artifact) = `d`. -/
theorem check_space_token_amended (fs : FS) (bbp bf bh : String) (bs t C : List Nat)
    (hhash : fsGet fs (pjoin bbp bh) = some (.readable bs))
    (ht : bs.takeWhile (fun c => c != 32) = t)
    (hfile : fsGet fs (pjoin bbp bf) = some (.readable C)) :
    (hexDecode t = none → check fs bbp bf bh = .error (.decodeDigestError (pjoin bbp bh))) ∧
    (∀ d, hexDecode t = some d → (check fs bbp bf bh = .ok () ↔ sha256 C = d)) ∧
    (t.all (fun c => c != 32) = true → ∀ rest,
      (t ++ 32 :: rest).takeWhile (fun c => c != 32) = t) := by
  refine ⟨?_, ?_, ?_⟩
  · intro hd
    simp [check, hhash, ht, hd]
  · intro d hd
    by_cases hsd : sha256 C = d
    · simp [check, hhash, ht, hd, hfile, hsd]
    · simp [check, hhash, ht, hd, hfile, hsd]
  · intro hall rest
    exact takeWhile_space_of_append t rest hall

/-- A digest file with a trailing space-separated filename token. -/
def digestFileTrW : List Nat := digestFileW ++ 32 :: [102, 111, 111]

/-- Filesystem with the trailing-token digest file and matching artifact. -/
def fsTrW : FS := [(hpW, .readable digestFileTrW), (fpW, .readable contentW)]

set_option maxRecDepth 1000000 in
/-- C7 amended witness: with a digest file `<hex> foo`, the trailing token
is ignored and `check` accepts the matching artifact. -/
theorem check_space_token_amended_witness :
    check fsTrW bbpW carW shaW = .ok () :=
  ((check_space_token_amended fsTrW bbpW carW shaW digestFileTrW digestFileW contentW
    (by rfl) (by rfl) (by rfl)).2.1 (sha256 contentW) (by rfl)).mpr (by rfl)

/-! ## C8 -/

/-- A filesystem whose artifact file exists but is unreadable, with a valid
digest file beside it. -/
def fsUnreadW : FS := [(hpW, .readable digestFileW), (fpW, .unreadable)]

set_option maxRecDepth 1000000 in
/-- C8 counterexample: an unreadable artifact makes `check` fail with a
FilesystemError (artifact read failure), yet `Fetch` does not surface it: it
silently re-fetches and returns success, absorbing the FilesystemError. -/
theorem filesystem_error_absorbed :
    check fsUnreadW bbpW carW shaW = .error (.readBundleError fpW) ∧
    isFilesystemError (.readBundleError fpW) = true ∧
    Fetch bfW 8 "v8.0.0" "mainnet" netW fsUnreadW =
      (.ok fpW, fsSet (fsSet fsUnreadW hpW (.readable digestFileW)) fpW (.readable contentW),
       [downloadUrl "v8.0.0" shaW, downloadUrl "v8.0.0" carW]) := ⟨by rfl, by rfl, by rfl⟩

/-- C8 amended: every error arising after the pre-existing-file
verification — a fetch failure, or any failure (of any category) of the
post-fetch `check` — is surfaced by `Fetch` exactly as produced; only
failures of the pre-existing file's verification are absorbed by the
self-healing re-fetch. -/
theorem fetch_path_errors_surfaced (b : BundleFetcher) (version : Version)
    (release netw : String) (net : Net) (fs : FS)
    (hmiss : fsGet fs (bundleFilePath b version release netw) = none ∨
      ∃ e0, check fs (bundleBasePath b version release) (bundleFile netw) (bundleHash netw) =
        .error e0) :
    (∀ e fs1 calls, fetch net release (bundleBasePath b version release) (bundleFile netw)
        (bundleHash netw) fs = (.error e, fs1, calls) →
      Fetch b version release netw net fs = (.error e, fs1, calls)) ∧
    (∀ e fs1 calls, fetch net release (bundleBasePath b version release) (bundleFile netw)
        (bundleHash netw) fs = (.ok (), fs1, calls) →
      check fs1 (bundleBasePath b version release) (bundleFile netw) (bundleHash netw) =
        .error e →
      Fetch b version release netw net fs = (.error e, fs1, calls)) := by
  constructor
  · intro e fs1 calls hf
    rw [Fetch_not_hit b version release netw net fs hmiss]
    simp [fetchAndCheck, hf]
  · intro e fs1 calls hf hc
    rw [Fetch_not_hit b version release netw net fs hmiss]
    simp [fetchAndCheck, hf, hc]

/-- C8 amended witness: with an empty cache and unreachable origin, the
fetch error is surfaced unchanged. -/
theorem fetch_path_errors_surfaced_witness :
    Fetch bfW 8 "v8.0.0" "calibrationnet" [] [] =
      (.error (.httpGetError (downloadUrl "v8.0.0" (bundleHash "calibrationnet"))), [],
       [downloadUrl "v8.0.0" (bundleHash "calibrationnet")]) :=
  (fetch_path_errors_surfaced bfW 8 "v8.0.0" "calibrationnet" [] [] (Or.inl rfl)).1
    (.httpGetError (downloadUrl "v8.0.0" (bundleHash "calibrationnet"))) []
    [downloadUrl "v8.0.0" (bundleHash "calibrationnet")] (by rfl)

/-! ## C9 -/

/-- C9: every successful `Fetch` — cache hit or fetch branch alike — returns
exactly `<root>/builtin-actors/v<version>/<release>/builtin-actors-<netw>.car`;
in particular for root `/tmp/cache`, version 8, release `v8.0.0` and network
`mainnet` it returns
`/tmp/cache/builtin-actors/v8/v8.0.0/builtin-actors-mainnet.car`. -/
theorem fetch_returns_canonical_path :
    (∀ root version release netw net fs p fs1 calls,
      Fetch (NewBundleFetcher root) version release netw net fs = (.ok p, fs1, calls) →
      p = pjoin (pjoin (pjoin (pjoin root "builtin-actors") ("v" ++ toString version)) release)
            (("builtin-actors-" ++ netw) ++ ".car")) ∧
    (∀ net fs p fs1 calls,
      Fetch (NewBundleFetcher "/tmp/cache") 8 "v8.0.0" "mainnet" net fs = (.ok p, fs1, calls) →
      p = "/tmp/cache/builtin-actors/v8/v8.0.0/builtin-actors-mainnet.car") := by
  constructor
  · intro root version release netw net fs p fs1 calls h
    exact (Fetch_ok_inv (NewBundleFetcher root) version release netw net fs p fs1 calls h).1
  · intro net fs p fs1 calls h
    have hp := (Fetch_ok_inv (NewBundleFetcher "/tmp/cache") 8 "v8.0.0" "mainnet"
      net fs p fs1 calls h).1
    rw [hp]
    rfl

set_option maxRecDepth 1000000 in
/-- C9 witness: the concrete cache-hit run of the end-to-end scenario
returns the expected literal path. -/
theorem fetch_returns_canonical_path_witness :
    fpW = "/tmp/cache/builtin-actors/v8/v8.0.0/builtin-actors-mainnet.car" :=
  fetch_returns_canonical_path.2 [] fsGoodW fpW fsGoodW [] (by rfl)

/-! ## C10 -/

/-- An origin serving only the digest file of the scenario. -/
def netHashOnlyW : Net := [(downloadUrl "v8.0.0" shaW, ⟨200, digestFileW⟩)]

/-- C10: when the digest download succeeds but the artifact download fails
(transport error or non-success status), `Fetch` returns a RetrievalError
after requesting both URLs; the digest file at the target path has been
overwritten with the fresh digest body, and the artifact file's entry is
exactly what it was before the call. -/
theorem artifact_download_failure_frame (b : BundleFetcher) (version : Version)
    (release netw : String) (net : Net) (fs : FS) (hb : List Nat)
    (hmiss : fsGet fs (bundleFilePath b version release netw) = none ∨
      ∃ e0, check fs (bundleBasePath b version release) (bundleFile netw) (bundleHash netw) =
        .error e0)
    (hhash : netGet net (downloadUrl release (bundleHash netw)) = some ⟨200, hb⟩)
    (hfail : netGet net (downloadUrl release (bundleFile netw)) = none ∨
      ∃ r, netGet net (downloadUrl release (bundleFile netw)) = some r ∧ r.status ≠ 200) :
    ∃ e, isRetrievalError e = true ∧
      Fetch b version release netw net fs =
        (.error e, fsSet fs (bundleHashPath b version release netw) (.readable hb),
         [downloadUrl release (bundleHash netw), downloadUrl release (bundleFile netw)]) ∧
      fsGet (fsSet fs (bundleHashPath b version release netw) (.readable hb))
          (bundleHashPath b version release netw) = some (.readable hb) ∧
      fsGet (fsSet fs (bundleHashPath b version release netw) (.readable hb))
          (bundleFilePath b version release netw) =
        fsGet fs (bundleFilePath b version release netw) := by
  have hframe2 : fsGet (fsSet fs (bundleHashPath b version release netw) (.readable hb))
      (bundleFilePath b version release netw) =
      fsGet fs (bundleFilePath b version release netw) :=
    fsGet_fsSet_ne _ _ _ _ (Ne.symm (bundleFilePath_ne_bundleHashPath b version release netw))
  rcases hfail with hnone | ⟨r, hr, hst⟩
  · refine ⟨.httpGetError (downloadUrl release (bundleFile netw)), rfl, ?_,
      fsGet_fsSet_self _ _ _, hframe2⟩
    rw [Fetch_not_hit b version release netw net fs hmiss]
    simp [fetchAndCheck, fetch, fetchURL, pjoin_bundleHash, pjoin_bundleFile, hhash, hnone]
  · refine ⟨.httpStatusError (downloadUrl release (bundleFile netw)) r.status, rfl, ?_,
      fsGet_fsSet_self _ _ _, hframe2⟩
    rw [Fetch_not_hit b version release netw net fs hmiss]
    simp [fetchAndCheck, fetch, fetchURL, pjoin_bundleHash, pjoin_bundleFile, hhash, hr, hst]

set_option maxRecDepth 1000000 in
/-- C10 witness: empty cache, origin serving only the digest file — `Fetch`
fails, the digest file is written, the artifact entry is untouched. -/
theorem artifact_download_failure_frame_witness :
    ∃ e, isRetrievalError e = true ∧
      Fetch bfW 8 "v8.0.0" "mainnet" netHashOnlyW [] =
        (.error e, fsSet [] hpW (.readable digestFileW),
         [downloadUrl "v8.0.0" shaW, downloadUrl "v8.0.0" carW]) ∧
      fsGet (fsSet [] hpW (.readable digestFileW)) hpW = some (.readable digestFileW) ∧
      fsGet (fsSet [] hpW (.readable digestFileW)) fpW = fsGet [] fpW :=
  artifact_download_failure_frame bfW 8 "v8.0.0" "mainnet" netHashOnlyW [] digestFileW
    (Or.inl rfl) (by rfl) (Or.inl rfl)
